import Mathlib

/-!
Verification of the grid renderer and auxiliary scripts of the
`ziggle-dev/clanker` repository, embedded shallowly from the Python source.

* `src/retro_pixel_art.py` : `generate_pixel_art` and the validation step
  of `main`.
* `src/adjusted_test.py`   : `calculate_factorial`.
* `src/large_test.py`      : `factorial`.

Python strings of glyphs are modelled as `List Char`; the list returned by
`generate_pixel_art` as `List (List Char)`.  The ambient entropy source that
`random.choice(pixel_chars)` draws from is made explicit as an oracle
`rand : Nat → Nat → Fin 6` giving, per cell `(x, y)`, the index of the
palette element chosen; the deterministic styles never consult it.
Python exceptions are modelled with `Except`.
-/

/-- The palette `pixel_chars = ['█', '▓', '▒', '░', '■', '□']` defined at the
top of `generate_pixel_art` (src/retro_pixel_art.py, line 12):
solid, dark-shade, medium-shade, light-shade, filled-box, empty-box. -/
def pixel_chars : List Char := ['█', '▓', '▒', '░', '■', '□']

/-- One iteration of the inner `for x in range(width)` loop body of
`generate_pixel_art` (src/retro_pixel_art.py, lines 16-25): given the row
accumulated so far, append the glyph chosen by the `if/elif` chain on
`style`; an unrecognized style matches no branch and leaves `row` unchanged.
`random.choice(pixel_chars)` is the palette element at the oracle's index. -/
def cellAppend (rand : Nat → Nat → Fin 6) (width height : Nat) (style : String)
    (y : Nat) (row : List Char) (x : Nat) : List Char :=
  if style = "random" then
    row ++ [pixel_chars[((rand x y : Nat))]!]
  else if style = "checker" then
    row ++ [if (x + y) % 2 = 0 then pixel_chars[0]! else pixel_chars[1]!]
  else if style = "border" then
    if x = 0 ∨ x = width - 1 ∨ y = 0 ∨ y = height - 1 then
      row ++ [pixel_chars[0]!]
    else
      row ++ [pixel_chars[3]!]
  else
    row

/-- The inner loop of `generate_pixel_art`: starting from `row = ''`, run
`cellAppend` over `x = 0, …, width-1` (src/retro_pixel_art.py, lines 15-25). -/
def buildRow (rand : Nat → Nat → Fin 6) (width height : Nat) (style : String)
    (y : Nat) : List Char :=
  (List.range width).foldl (cellAppend rand width height style y) []

/-- `generate_pixel_art(width, height, style)` from src/retro_pixel_art.py
(lines 6-27): the outer `for y in range(height)` loop appends each finished
row to `art`, which is returned. -/
def generate_pixel_art (rand : Nat → Nat → Fin 6) (width height : Nat)
    (style : String) : List (List Char) :=
  (List.range height).foldl
    (fun art y => art ++ [buildRow rand width height style y]) []

/-- The validation step of `main` (src/retro_pixel_art.py, lines 36-42):
if `not 5 <= width <= 50 or not 5 <= height <= 30` then both dimensions
become the defaults `10, 10`; if the style is not one of
`['random', 'checker', 'border']` it becomes `'random'`.  Returns the
`(width, height, style)` triple actually passed to `generate_pixel_art`. -/
def main_validate (width height : Int) (style : String) : Int × Int × String :=
  let dims :=
    if ¬(5 ≤ width ∧ width ≤ 50) ∨ ¬(5 ≤ height ∧ height ≤ 30) then
      ((10 : Int), (10 : Int))
    else
      (width, height)
  let s := if style ∉ ["random", "checker", "border"] then "random" else style
  (dims.1, dims.2, s)

/-- `calculate_factorial` from src/adjusted_test.py (lines 38-42).  Its
`else` branch evaluates `n * factorial(n - 1)`, but the name `factorial` is
bound nowhere in that module (the module defines only `statistics`, `random`,
`List`, `add_numbers`, `multiply_numbers`, `Calculator`, `process_list`,
`calculate_factorial` and the loop variables), so Python raises `NameError`
when the branch runs; the raise is embedded as `Except.error`. -/
def calculate_factorial (n : Nat) : Except String Nat :=
  if n = 0 then
    Except.ok 1
  else
    Except.error "NameError: name 'factorial' is not defined"

/-- `factorial` from src/large_test.py (lines 8-12):
`if n == 0: return 1 else: return n * factorial(n - 1)`, on the natural
numbers.  Lean accepts the recursion with the decreasing measure `n`. -/
def factorial (n : Nat) : Nat :=
  if n = 0 then 1 else n * factorial (n - 1)

/-! ## Structural lemmas about the renderer loops -/

/-- A left fold that appends a per-element chunk to its accumulator is the
initial accumulator followed by the concatenation of the chunks. -/
theorem foldl_chunk {α β : Type} (F : List α → β → List α)
    (hF : ∀ acc x, F acc x = acc ++ F [] x) :
    ∀ (l : List β) (init : List α),
      l.foldl F init = init ++ (l.map (fun x => F [] x)).flatten := by
  intro l
  induction l with
  | nil => intro init; simp
  | cons a l ih =>
      intro init
      simp only [List.foldl_cons, List.map_cons, List.flatten]
      rw [ih, hF init a, List.append_assoc]

theorem flatten_map_singleton {α β : Type} (g : β → α) (l : List β) :
    (l.map (fun x => [g x])).flatten = l.map g := by
  induction l with
  | nil => rfl
  | cons a l ih => simp [ih]

theorem cellAppend_chunk (rand : Nat → Nat → Fin 6) (width height : Nat)
    (style : String) (y : Nat) (row : List Char) (x : Nat) :
    cellAppend rand width height style y row x
      = row ++ cellAppend rand width height style y [] x := by
  unfold cellAppend
  split_ifs <;> simp

theorem generate_eq_map (rand : Nat → Nat → Fin 6) (width height : Nat)
    (style : String) :
    generate_pixel_art rand width height style
      = (List.range height).map (buildRow rand width height style) := by
  unfold generate_pixel_art
  rw [foldl_chunk (fun art y => art ++ [buildRow rand width height style y])
      (fun acc x => rfl)]
  simp [flatten_map_singleton]

theorem buildRow_eq_join (rand : Nat → Nat → Fin 6) (width height : Nat)
    (style : String) (y : Nat) :
    buildRow rand width height style y
      = ((List.range width).map
          (fun x => cellAppend rand width height style y [] x)).flatten := by
  unfold buildRow
  rw [foldl_chunk (cellAppend rand width height style y)
      (cellAppend_chunk rand width height style y)]
  rfl

theorem cellAppend_random (rand : Nat → Nat → Fin 6) (width height : Nat)
    (y x : Nat) :
    cellAppend rand width height "random" y [] x
      = [pixel_chars[((rand x y : Nat))]!] := by
  unfold cellAppend
  rw [if_pos rfl]
  rfl

theorem cellAppend_checker (rand : Nat → Nat → Fin 6) (width height : Nat)
    (y x : Nat) :
    cellAppend rand width height "checker" y [] x
      = [if (x + y) % 2 = 0 then pixel_chars[0]! else pixel_chars[1]!] := by
  unfold cellAppend
  rw [if_neg (by decide), if_pos rfl]
  rfl

theorem cellAppend_border (rand : Nat → Nat → Fin 6) (width height : Nat)
    (y x : Nat) :
    cellAppend rand width height "border" y [] x
      = [if x = 0 ∨ x = width - 1 ∨ y = 0 ∨ y = height - 1 then
          pixel_chars[0]! else pixel_chars[3]!] := by
  unfold cellAppend
  rw [if_neg (by decide), if_neg (by decide), if_pos rfl]
  split_ifs <;> rfl

theorem cellAppend_unknown (rand : Nat → Nat → Fin 6) (width height : Nat)
    (style : String)
    (hstyle : style ∉ (["random", "checker", "border"] : List String))
    (y x : Nat) :
    cellAppend rand width height style y [] x = [] := by
  simp only [List.mem_cons, List.not_mem_nil, or_false] at hstyle
  push_neg at hstyle
  unfold cellAppend
  rw [if_neg hstyle.1, if_neg hstyle.2.1, if_neg hstyle.2.2]

theorem generate_random_eq (rand : Nat → Nat → Fin 6) (width height : Nat) :
    generate_pixel_art rand width height "random"
      = (List.range height).map (fun y => (List.range width).map
          (fun x => pixel_chars[((rand x y : Nat))]!)) := by
  rw [generate_eq_map]
  refine List.map_congr_left (fun y _ => ?_)
  rw [buildRow_eq_join]
  simp only [cellAppend_random]
  exact flatten_map_singleton ..

theorem generate_checker_eq (rand : Nat → Nat → Fin 6) (width height : Nat) :
    generate_pixel_art rand width height "checker"
      = (List.range height).map (fun y => (List.range width).map
          (fun x => if (x + y) % 2 = 0 then pixel_chars[0]!
                    else pixel_chars[1]!)) := by
  rw [generate_eq_map]
  refine List.map_congr_left (fun y _ => ?_)
  rw [buildRow_eq_join]
  simp only [cellAppend_checker]
  exact flatten_map_singleton ..

theorem generate_border_eq (rand : Nat → Nat → Fin 6) (width height : Nat) :
    generate_pixel_art rand width height "border"
      = (List.range height).map (fun y => (List.range width).map
          (fun x => if x = 0 ∨ x = width - 1 ∨ y = 0 ∨ y = height - 1 then
                      pixel_chars[0]! else pixel_chars[3]!)) := by
  rw [generate_eq_map]
  refine List.map_congr_left (fun y _ => ?_)
  rw [buildRow_eq_join]
  simp only [cellAppend_border]
  exact flatten_map_singleton ..

theorem generate_unknown_eq (rand : Nat → Nat → Fin 6) (width height : Nat)
    (style : String)
    (hstyle : style ∉ (["random", "checker", "border"] : List String)) :
    generate_pixel_art rand width height style
      = List.replicate height [] := by
  rw [generate_eq_map]
  have hrow : ∀ y, buildRow rand width height style y = [] := by
    intro y
    rw [buildRow_eq_join]
    simp only [cellAppend_unknown rand width height style hstyle]
    simp
  calc (List.range height).map (buildRow rand width height style)
      = (List.range height).map (fun _ => ([] : List Char)) :=
        List.map_congr_left (fun y _ => hrow y)
    _ = List.replicate height [] := by simp

/-- Reading cell `(x, y)` out of a grid built as a map over row and column
indices. -/
theorem getElem_grid (g : Nat → Nat → Char) (w h x y : Nat)
    (hx : x < w) (hy : y < h) :
    ((((List.range h).map (fun y => (List.range w).map (fun x => g x y))))[y]!)[x]!
      = g x y := by
  have hy' : y < ((List.range h).map
      (fun y => (List.range w).map (fun x => g x y))).length := by simpa using hy
  rw [getElem!_pos ((List.range h).map
      (fun y => (List.range w).map (fun x => g x y))) y hy']
  simp only [List.getElem_map, List.getElem_range]
  have hx' : x < ((List.range w).map (fun x => g x y)).length := by simpa using hx
  rw [getElem!_pos ((List.range w).map (fun x => g x y)) x hx']
  simp

/-- The glyph the renderer places at cell `(x, y)` for style `checker`. -/
theorem checker_cell (rand : Nat → Nat → Fin 6) (w h x y : Nat)
    (hx : x < w) (hy : y < h) :
    ((generate_pixel_art rand w h "checker")[y]!)[x]!
      = if (x + y) % 2 = 0 then pixel_chars[0]! else pixel_chars[1]! := by
  rw [generate_checker_eq]
  exact getElem_grid (fun x y => if (x + y) % 2 = 0 then pixel_chars[0]!
    else pixel_chars[1]!) w h x y hx hy

/-- The glyph the renderer places at cell `(x, y)` for style `border`. -/
theorem border_cell (rand : Nat → Nat → Fin 6) (w h x y : Nat)
    (hx : x < w) (hy : y < h) :
    ((generate_pixel_art rand w h "border")[y]!)[x]!
      = if x = 0 ∨ x = w - 1 ∨ y = 0 ∨ y = h - 1 then pixel_chars[0]!
        else pixel_chars[3]! := by
  rw [generate_border_eq]
  exact getElem_grid (fun x y => if x = 0 ∨ x = w - 1 ∨ y = 0 ∨ y = h - 1 then
    pixel_chars[0]! else pixel_chars[3]!) w h x y hx hy

/-! ## Claim theorems -/

/-- C1: for every positive width `w`, positive height `h` and style among
`random`, `checker`, `border`, `generate_pixel_art` returns exactly `h`
rows, each consisting of exactly `w` glyphs. -/
theorem claim_C1 (rand : Nat → Nat → Fin 6) (w h : Nat) (style : String)
    (hw : 0 < w) (hh : 0 < h)
    (hstyle : style ∈ (["random", "checker", "border"] : List String)) :
    (generate_pixel_art rand w h style).length = h
      ∧ ∀ row ∈ generate_pixel_art rand w h style, row.length = w := by
  have hlen : (generate_pixel_art rand w h style).length = h := by
    rw [generate_eq_map]; simp
  refine ⟨hlen, ?_⟩
  intro row hrow
  simp only [List.mem_cons, List.not_mem_nil, or_false] at hstyle
  rcases hstyle with h1 | h1 | h1 <;> subst h1
  · rw [generate_random_eq] at hrow
    obtain ⟨y, -, rfl⟩ := List.mem_map.mp hrow
    simp
  · rw [generate_checker_eq] at hrow
    obtain ⟨y, -, rfl⟩ := List.mem_map.mp hrow
    simp
  · rw [generate_border_eq] at hrow
    obtain ⟨y, -, rfl⟩ := List.mem_map.mp hrow
    simp

theorem claim_C1_witness :
    (0 < 3 ∧ 0 < 2
        ∧ "random" ∈ (["random", "checker", "border"] : List String))
      ∧ ((generate_pixel_art (fun _ _ => 0) 3 2 "random").length = 2
        ∧ ∀ row ∈ generate_pixel_art (fun _ _ => 0) 3 2 "random",
            row.length = 3) :=
  ⟨⟨by decide, by decide, by decide⟩,
    claim_C1 (fun _ _ => 0) 3 2 "random" (by decide) (by decide) (by decide)⟩

/-- C2: for style `checker` the glyph at column `x`, row `y` is `palette[0]`
(solid, `'█'`) when `x + y` is even and `palette[1]` (dark-shade, `'▓'`)
when it is odd; in particular the 4×3 checker render is the stated grid. -/
theorem claim_C2 (rand : Nat → Nat → Fin 6) (w h : Nat)
    (hw : 0 < w) (hh : 0 < h) :
    (∀ x y, x < w → y < h →
        ((generate_pixel_art rand w h "checker")[y]!)[x]!
          = if (x + y) % 2 = 0 then pixel_chars[0]! else pixel_chars[1]!)
      ∧ pixel_chars[0]! = '█' ∧ pixel_chars[1]! = '▓'
      ∧ generate_pixel_art rand 4 3 "checker"
          = [['█', '▓', '█', '▓'], ['▓', '█', '▓', '█'],
             ['█', '▓', '█', '▓']] := by
  refine ⟨fun x y hx hy => checker_cell rand w h x y hx hy, by decide, by decide, ?_⟩
  rw [generate_checker_eq]
  decide

theorem claim_C2_witness :
    (0 < 4 ∧ 0 < 3)
      ∧ ((generate_pixel_art (fun _ _ => 0) 4 3 "checker")[1]!)[2]!
          = (if (2 + 1) % 2 = 0 then pixel_chars[0]! else pixel_chars[1]!)
      ∧ generate_pixel_art (fun _ _ => 0) 4 3 "checker"
          = [['█', '▓', '█', '▓'], ['▓', '█', '▓', '█'],
             ['█', '▓', '█', '▓']] :=
  ⟨⟨by decide, by decide⟩,
    (claim_C2 (fun _ _ => 0) 4 3 (by decide) (by decide)).1 2 1
      (by decide) (by decide),
    (claim_C2 (fun _ _ => 0) 4 3 (by decide) (by decide)).2.2.2⟩

/-- C3: for style `border` the glyph at `(x, y)` is `palette[0]` (solid)
exactly on the outer edge and `palette[3]` (light-shade) otherwise; for
`w, h ≥ 3` the four corners are solid and `(w / 2, h / 2)` is light-shade;
and the 5×5 border render is an outer solid ring around a light-shade
interior. -/
theorem claim_C3 (rand : Nat → Nat → Fin 6) (w h : Nat)
    (hw : 0 < w) (hh : 0 < h) :
    (∀ x y, x < w → y < h →
        ((generate_pixel_art rand w h "border")[y]!)[x]!
          = if x = 0 ∨ x = w - 1 ∨ y = 0 ∨ y = h - 1 then pixel_chars[0]!
            else pixel_chars[3]!)
      ∧ (3 ≤ w → 3 ≤ h →
          ((generate_pixel_art rand w h "border")[0]!)[0]! = pixel_chars[0]!
            ∧ ((generate_pixel_art rand w h "border")[0]!)[w - 1]!
                = pixel_chars[0]!
            ∧ ((generate_pixel_art rand w h "border")[h - 1]!)[0]!
                = pixel_chars[0]!
            ∧ ((generate_pixel_art rand w h "border")[h - 1]!)[w - 1]!
                = pixel_chars[0]!
            ∧ ((generate_pixel_art rand w h "border")[h / 2]!)[w / 2]!
                = pixel_chars[3]!)
      ∧ generate_pixel_art rand 5 5 "border"
          = [['█', '█', '█', '█', '█'],
             ['█', '░', '░', '░', '█'],
             ['█', '░', '░', '░', '█'],
             ['█', '░', '░', '░', '█'],
             ['█', '█', '█', '█', '█']] := by
  refine ⟨fun x y hx hy => border_cell rand w h x y hx hy, ?_, ?_⟩
  · intro hw3 hh3
    refine ⟨?_, ?_, ?_, ?_, ?_⟩
    · rw [border_cell rand w h 0 0 hw hh, if_pos (Or.inl rfl)]
    · rw [border_cell rand w h (w - 1) 0 (by omega) hh, if_pos (by omega)]
    · rw [border_cell rand w h 0 (h - 1) hw (by omega), if_pos (Or.inl rfl)]
    · rw [border_cell rand w h (w - 1) (h - 1) (by omega) (by omega),
        if_pos (by omega)]
    · rw [border_cell rand w h (w / 2) (h / 2) (by omega) (by omega),
        if_neg (by omega)]
  · rw [generate_border_eq]
    decide

theorem claim_C3_witness :
    (0 < 5 ∧ 0 < 5 ∧ 3 ≤ 5)
      ∧ ((generate_pixel_art (fun _ _ => 0) 5 5 "border")[2]!)[3]!
          = (if (3 : Nat) = 0 ∨ 3 = 5 - 1 ∨ (2 : Nat) = 0 ∨ 2 = 5 - 1 then
              pixel_chars[0]! else pixel_chars[3]!)
      ∧ ((generate_pixel_art (fun _ _ => 0) 5 5 "border")[0]!)[0]!
          = pixel_chars[0]!
      ∧ ((generate_pixel_art (fun _ _ => 0) 5 5 "border")[5 / 2]!)[5 / 2]!
          = pixel_chars[3]!
      ∧ generate_pixel_art (fun _ _ => 0) 5 5 "border"
          = [['█', '█', '█', '█', '█'],
             ['█', '░', '░', '░', '█'],
             ['█', '░', '░', '░', '█'],
             ['█', '░', '░', '░', '█'],
             ['█', '█', '█', '█', '█']] :=
  ⟨⟨by decide, by decide, by decide⟩,
    (claim_C3 (fun _ _ => 0) 5 5 (by decide) (by decide)).1 3 2
      (by decide) (by decide),
    ((claim_C3 (fun _ _ => 0) 5 5 (by decide) (by decide)).2.1
      (by decide) (by decide)).1,
    ((claim_C3 (fun _ _ => 0) 5 5 (by decide) (by decide)).2.1
      (by decide) (by decide)).2.2.2.2,
    (claim_C3 (fun _ _ => 0) 5 5 (by decide) (by decide)).2.2⟩

/-- C4: the `checker` and `border` styles are deterministic: the rendered
grid does not depend on the entropy oracle, so two calls with identical
arguments yield identical output. -/
theorem claim_C4 (r1 r2 : Nat → Nat → Fin 6) (w h : Nat)
    (hw : 0 < w) (hh : 0 < h) :
    generate_pixel_art r1 w h "checker" = generate_pixel_art r2 w h "checker"
      ∧ generate_pixel_art r1 w h "border"
          = generate_pixel_art r2 w h "border" := by
  constructor
  · rw [generate_checker_eq, generate_checker_eq]
  · rw [generate_border_eq, generate_border_eq]

theorem claim_C4_witness :
    (0 < 2 ∧ 0 < 2)
      ∧ generate_pixel_art (fun _ _ => 0) 2 2 "checker"
          = generate_pixel_art (fun _ _ => 3) 2 2 "checker"
      ∧ generate_pixel_art (fun _ _ => 0) 2 2 "border"
          = generate_pixel_art (fun _ _ => 3) 2 2 "border" :=
  ⟨⟨by decide, by decide⟩,
    claim_C4 (fun _ _ => 0) (fun _ _ => 3) 2 2 (by decide) (by decide)⟩

/-- C5: for style `checker`, horizontally adjacent cells hold different
glyphs, and vertically adjacent cells hold different glyphs. -/
theorem claim_C5 (rand : Nat → Nat → Fin 6) (w h : Nat)
    (hw : 0 < w) (hh : 0 < h) :
    (∀ x y, x + 1 < w → y < h →
        ((generate_pixel_art rand w h "checker")[y]!)[x]!
          ≠ ((generate_pixel_art rand w h "checker")[y]!)[x + 1]!)
      ∧ ∀ x y, x < w → y + 1 < h →
          ((generate_pixel_art rand w h "checker")[y]!)[x]!
            ≠ ((generate_pixel_art rand w h "checker")[y + 1]!)[x]! := by
  constructor
  · intro x y hx1 hy
    rw [checker_cell rand w h x y (by omega) hy,
      checker_cell rand w h (x + 1) y hx1 hy]
    rcases Nat.mod_two_eq_zero_or_one (x + y) with hp | hp
    · rw [if_pos hp, if_neg (by omega)]
      decide
    · rw [if_neg (by omega), if_pos (by omega)]
      decide
  · intro x y hx hy1
    rw [checker_cell rand w h x y hx (by omega),
      checker_cell rand w h x (y + 1) hx hy1]
    rcases Nat.mod_two_eq_zero_or_one (x + y) with hp | hp
    · rw [if_pos hp, if_neg (by omega)]
      decide
    · rw [if_neg (by omega), if_pos (by omega)]
      decide

theorem claim_C5_witness :
    (0 < 3 ∧ 0 < 2)
      ∧ ((generate_pixel_art (fun _ _ => 0) 3 2 "checker")[0]!)[1]!
          ≠ ((generate_pixel_art (fun _ _ => 0) 3 2 "checker")[0]!)[2]!
      ∧ ((generate_pixel_art (fun _ _ => 0) 3 2 "checker")[0]!)[1]!
          ≠ ((generate_pixel_art (fun _ _ => 0) 3 2 "checker")[1]!)[1]! :=
  ⟨⟨by decide, by decide⟩,
    (claim_C5 (fun _ _ => 0) 3 2 (by decide) (by decide)).1 1 0
      (by decide) (by decide),
    (claim_C5 (fun _ _ => 0) 3 2 (by decide) (by decide)).2 1 0
      (by decide) (by decide)⟩

/-- C6: `generate_pixel_art(1, 1, 'border')` returns exactly one row of
length one holding `palette[0]` (solid); more generally, when `width = 1`
or `height = 1` every cell satisfies the edge condition and receives the
solid glyph. -/
theorem claim_C6 (rand : Nat → Nat → Fin 6) :
    generate_pixel_art rand 1 1 "border" = [[pixel_chars[0]!]]
      ∧ ∀ w h x y : Nat, (w = 1 ∨ h = 1) → x < w → y < h →
          ((generate_pixel_art rand w h "border")[y]!)[x]!
            = pixel_chars[0]! := by
  constructor
  · rw [generate_border_eq]
    decide
  · intro w h x y h1 hx hy
    rw [border_cell rand w h x y hx hy, if_pos (by omega)]

theorem claim_C6_witness :
    generate_pixel_art (fun _ _ => 0) 1 1 "border" = [[pixel_chars[0]!]]
      ∧ (((1 : Nat) = 1 ∨ (3 : Nat) = 1)
        ∧ ((generate_pixel_art (fun _ _ => 0) 1 3 "border")[2]!)[0]!
            = pixel_chars[0]!) :=
  ⟨(claim_C6 (fun _ _ => 0)).1,
    Or.inl rfl,
    (claim_C6 (fun _ _ => 0)).2 1 3 0 2 (Or.inl rfl) (by decide) (by decide)⟩

/-- C7: an unrecognized style raises nothing: the renderer returns normally
with `h` rows, every one of them empty, because no branch of the per-cell
`if/elif` chain appends a glyph. -/
theorem claim_C7 (rand : Nat → Nat → Fin 6) (w h : Nat) (style : String)
    (hw : 0 < w) (hh : 0 < h)
    (hstyle : style ∉ (["random", "checker", "border"] : List String)) :
    generate_pixel_art rand w h style = List.replicate h ([] : List Char)
      ∧ (generate_pixel_art rand w h style).length = h
      ∧ ∀ row ∈ generate_pixel_art rand w h style, row = ([] : List Char) := by
  have heq := generate_unknown_eq rand w h style hstyle
  refine ⟨heq, by rw [heq]; simp, ?_⟩
  intro row hrow
  rw [heq] at hrow
  exact List.eq_of_mem_replicate hrow

theorem claim_C7_witness :
    (0 < 2 ∧ 0 < 3
        ∧ "solid" ∉ (["random", "checker", "border"] : List String))
      ∧ generate_pixel_art (fun _ _ => 0) 2 3 "solid"
          = List.replicate 3 ([] : List Char) :=
  ⟨⟨by decide, by decide, by decide⟩,
    (claim_C7 (fun _ _ => 0) 2 3 "solid" (by decide) (by decide)
      (by decide)).1⟩

/-- C8: the shell's validation step replaces both dimensions by the
defaults `10, 10` whenever the width lies outside `[5, 50]` or the height
lies outside `[5, 30]`, and replaces any style outside
`{random, checker, border}` by `random`. -/
theorem claim_C8 (width height : Int) (style : String) :
    ((¬(5 ≤ width ∧ width ≤ 50) ∨ ¬(5 ≤ height ∧ height ≤ 30)) →
        (main_validate width height style).1 = 10
          ∧ (main_validate width height style).2.1 = 10)
      ∧ (style ∉ (["random", "checker", "border"] : List String) →
          (main_validate width height style).2.2 = "random") := by
  constructor
  · intro hbad
    unfold main_validate
    rw [if_pos hbad]
    exact ⟨rfl, rfl⟩
  · intro hstyle
    unfold main_validate
    simp only
    rw [if_pos hstyle]

theorem claim_C8_witness :
    (¬((5 : Int) ≤ 100 ∧ (100 : Int) ≤ 50) ∨ ¬((5 : Int) ≤ 7 ∧ (7 : Int) ≤ 30))
      ∧ (main_validate 100 7 "foo").1 = 10
      ∧ (main_validate 100 7 "foo").2.1 = 10
      ∧ "foo" ∉ (["random", "checker", "border"] : List String)
      ∧ (main_validate 100 7 "foo").2.2 = "random" :=
  ⟨by decide,
    ((claim_C8 100 7 "foo").1 (by decide)).1,
    ((claim_C8 100 7 "foo").1 (by decide)).2,
    by decide,
    (claim_C8 100 7 "foo").2 (by decide)⟩

/-- C9: `calculate_factorial` in src/adjusted_test.py returns `1` at `0`,
and for every `n ≥ 1` its `else` branch's reference to the undefined name
`factorial` makes the call fail with a `NameError` instead of returning
`n!`. -/
theorem claim_C9 :
    calculate_factorial 0 = Except.ok 1
      ∧ ∀ n : Nat, 1 ≤ n →
          calculate_factorial n
            = Except.error "NameError: name 'factorial' is not defined" := by
  constructor
  · rfl
  · intro n hn
    unfold calculate_factorial
    rw [if_neg (by omega)]

theorem claim_C9_witness :
    calculate_factorial 0 = Except.ok 1
      ∧ (1 ≤ 1
        ∧ calculate_factorial 1
            = Except.error "NameError: name 'factorial' is not defined") :=
  ⟨claim_C9.1, by decide, claim_C9.2 1 (by decide)⟩

/-- C10: `factorial` in src/large_test.py is total on the natural numbers
(both the Lean recursion and the Python recursion on `n - 1` terminate),
and it computes the mathematical factorial `n! = 1 * 2 * ⋯ * n` with
`factorial 0 = 1`. -/
theorem claim_C10 : ∀ n : Nat, factorial n = Nat.factorial n := by
  intro n
  induction n with
  | zero => rw [factorial]; rfl
  | succ k ih =>
      rw [factorial, if_neg (Nat.succ_ne_zero k)]
      simp [Nat.factorial_succ, ih]
